import Mathlib

/-!
Verification of the input-normalization / inference-execution / latency-aggregation
pipeline of the breast-cancer prediction service.

The embedding follows the source files:
  app/pre_process.py  (clean_array, from_json_payload, from_csv_bytes)
  app/inference.py    (predict_from_json, predict_from_csv)
  app/logger.py       (get_app_logger, get_pred_logger, _mk_handler)
  reports/make_report.py (parse_lines, main)

Numeric cells are modelled as rationals; a float NaN is modelled as a distinct
marker, and a text token that does not parse as a float is a third marker.
Fallible Python code (raise / pandas errors) is modelled with Except.
-/

namespace BCApp

/-- The fixed feature-width constant from app/pre_process.py (`N_FEATURES = 23`). -/
def N_FEATURES : Nat := 23

/-- A raw cell as it can appear in an input batch before numeric coercion:
a finite numeric value, a float NaN / empty field, or a text token that does
not parse as a float. -/
inductive JCell
  | num (q : ℚ)
  | nanV
  | tok
deriving DecidableEq, Repr

/-- Semantics of `pd.to_numeric(..., errors="coerce")` on one cell: a numeric
value stays, NaN stays missing, and a non-numeric token becomes missing. -/
def JCell.toNumeric : JCell → Option ℚ
  | .num q => some q
  | .nanV => none
  | .tok => none

/-- True exactly on the non-numeric-token cell. -/
def JCell.isTok : JCell → Bool
  | .tok => true
  | _ => false

/-- A numpy array as it reaches `clean_array`: rank 1 (one flat sample) or
rank 2.  A rank-2 ndarray carries its column count in its shape even when it
has zero rows, so the column count is stored explicitly. -/
inductive NDArr
  | rank1 (xs : List JCell)
  | rank2 (ncols : Nat) (rows : List (List JCell))
deriving DecidableEq, Repr

/-- Well-formedness of the ndarray model: in a rank-2 array every row has
exactly `ncols` cells (numpy arrays are rectangular by construction). -/
def NDArr.wfB : NDArr → Bool
  | .rank1 _ => true
  | .rank2 n rows => rows.all (fun r => decide (r.length = n))

/-- Column count of the array after the rank-1 → one-row-matrix promotion
performed at the top of `clean_array` (`arr.reshape(1, -1)`). -/
def NDArr.ncolsOf : NDArr → Nat
  | .rank1 xs => xs.length
  | .rank2 n _ => n

/-- The rows of the array after the rank-1 → one-row-matrix promotion. -/
def NDArr.promoteRows : NDArr → List (List JCell)
  | .rank1 xs => [xs]
  | .rank2 _ rows => rows

/-- The errors raised by the normalization entry points, one constructor per
raise site:
`shapeMismatch got` is the ValueError "Expected 23 features, got {got}" in
`clean_array`; `jsonNotNonEmptyList` is the ValueError "JSON must be a
non-empty list" in `from_json_payload`; `npArrayError` is the ValueError
raised by `np.array(payload, dtype=float)` on a ragged list or a non-numeric
cell; `emptyCsvData` is the pandas EmptyDataError raised by `pd.read_csv` on
an empty byte stream. -/
inductive Err
  | shapeMismatch (got : Nat)
  | jsonNotNonEmptyList
  | npArrayError
  | emptyCsvData
deriving DecidableEq, Repr

/-- Insert a rational into a sorted list, keeping it sorted. -/
def insertSorted (x : ℚ) : List ℚ → List ℚ
  | [] => [x]
  | y :: ys => if x ≤ y then x :: y :: ys else y :: insertSorted x ys

/-- Sort a list of rationals ascending (insertion sort). -/
def sortQ : List ℚ → List ℚ
  | [] => []
  | x :: xs => insertSorted x (sortQ xs)

/-- Semantics of `pandas.Series.median()` over the non-missing values of a
column: sort the values, take the middle one (odd count) or the mean of the
two middle ones (even count); undefined (NaN) on an empty column. -/
def median (xs : List ℚ) : Option ℚ :=
  if (sortQ xs).length = 0 then none
  else if (sortQ xs).length % 2 = 1 then (sortQ xs).get? ((sortQ xs).length / 2)
  else
    match (sortQ xs).get? ((sortQ xs).length / 2 - 1),
        (sortQ xs).get? ((sortQ xs).length / 2) with
    | some a, some b => some ((a + b) / 2)
    | _, _ => none

/-- The non-missing values of column `j` within the current batch, after
numeric coercion (the values `df.median()` is computed over). -/
def colVals (rows : List (List JCell)) (j : Nat) : List ℚ :=
  rows.filterMap (fun r => (r.get? j).bind JCell.toNumeric)

/-- Semantics of one cell of `df.fillna(df.median(numeric_only=True))`: a
coercible cell keeps its value; a missing cell is filled with the median of
its column's non-missing values within the current batch — and stays missing
(NaN) when that median is undefined, exactly as `fillna` leaves NaN in place
when the fill value is itself NaN. -/
def imputeCell (rows : List (List JCell)) (j : Nat) (c : JCell) : Option ℚ :=
  match c.toNumeric with
  | some q => some q
  | none => median (colVals rows j)

/-- Impute one row, `j` being the column index of the first cell. -/
def imputeRow (rows : List (List JCell)) (j : Nat) : List JCell → List (Option ℚ)
  | [] => []
  | c :: cs => imputeCell rows j c :: imputeRow rows (j + 1) cs

/-- Semantics of `df.apply(pd.to_numeric, errors="coerce")` followed by
`df.fillna(df.median(numeric_only=True))` on the whole batch. -/
def imputeRows (rows : List (List JCell)) : List (List (Option ℚ)) :=
  rows.map (imputeRow rows 0)

/-- Embedding of `clean_array` (app/pre_process.py): promote a rank-1 array to
one row, raise the shape-specific ValueError when the column count is not
`N_FEATURES`, otherwise coerce to numeric and impute missing cells with
per-column per-batch medians.  An output cell of `none` is a remaining NaN
(possible only when a whole column is missing). -/
def clean_array (a : NDArr) : Except Err (List (List (Option ℚ))) :=
  if a.ncolsOf = N_FEATURES then .ok (imputeRows a.promoteRows)
  else .error (.shapeMismatch a.ncolsOf)

/-- The JSON payload as it reaches `from_json_payload`: not a list at all, a
flat list of cells (one sample), or a list of rows (a batch). -/
inductive Payload
  | notList
  | flat (xs : List JCell)
  | nested (rows : List (List JCell))
deriving DecidableEq, Repr

/-- Rectangularity of a list of rows (numpy refuses ragged input under
`dtype=float`). -/
def rectB (rows : List (List JCell)) : Bool :=
  rows.all (fun r => decide (r.length = (rows.headD []).length))

/-- Embedding of `from_json_payload` (app/pre_process.py): reject a non-list
or empty payload with the "JSON must be a non-empty list" ValueError, then run
`np.array(payload, dtype=float)` — which raises on a ragged batch or on any
cell that does not parse as a float — and hand the resulting array to
`clean_array`. -/
def from_json_payload (p : Payload) : Except Err (List (List (Option ℚ))) :=
  match p with
  | .notList => .error .jsonNotNonEmptyList
  | .flat xs =>
    if xs.length = 0 then .error .jsonNotNonEmptyList
    else if xs.any JCell.isTok then .error .npArrayError
    else clean_array (.rank1 xs)
  | .nested rows =>
    if rows.length = 0 then .error .jsonNotNonEmptyList
    else if !rectB rows || rows.any (fun r => r.any JCell.isTok) then .error .npArrayError
    else clean_array (.rank2 (rows.headD []).length rows)

/-- The outcome of `pd.read_csv` on the uploaded bytes: an empty byte stream
(EmptyDataError), or a parsed table with a header row naming the columns and
zero or more data rows of cells. -/
inductive CsvFile
  | empty
  | withHeader (header : List String) (rows : List (List JCell))
deriving DecidableEq, Repr

/-- Embedding of `from_csv_bytes` (app/pre_process.py): `pd.read_csv` raises
EmptyDataError on empty bytes; otherwise `df.values` is a rank-2 array whose
column count is the header length, which is handed to `clean_array`. -/
def from_csv_bytes (f : CsvFile) : Except Err (List (List (Option ℚ))) :=
  match f with
  | .empty => .error .emptyCsvData
  | .withHeader header rows => clean_array (.rank2 header.length rows)

/-- Whether an Except value is a success. -/
def exceptIsOk {ε α : Type} : Except ε α → Bool
  | .ok _ => true
  | .error _ => false

/-! Report aggregator (reports/make_report.py). -/

/-- One line of the prediction log as seen by `parse_lines` after the
`line.split("INFO predict: ")[-1]` / `json.loads` step: either the extracted
tail is not valid JSON (the line is skipped), or it parses as a JSON object,
modelled as its list of fields with numeric values. -/
inductive LogLine
  | noJson
  | jsonRow (fields : List (String × ℚ))
deriving DecidableEq, Repr

/-- The row appended for a line, if any: `jsonRow` lines yield their object,
`noJson` lines are skipped by the `except: pass` branch. -/
def LogLine.row? : LogLine → Option (List (String × ℚ))
  | .noJson => none
  | .jsonRow fields => some fields

/-- The on-disk state of the prediction log as kept by the rotation policy:
the active segment `logs/predictions.log` plus the rotated historical
segments `predictions.log.1`, `.2`, `.3` (newest first). -/
structure LogState where
  active : List LogLine
  backups : List (List LogLine)
deriving DecidableEq, Repr

/-- Embedding of `parse_lines` (reports/make_report.py): it reads only the
active segment `logs/predictions.log` (the constant `LOG`), keeps each line
whose extracted tail parses as JSON, and skips the rest. -/
def parse_lines (st : LogState) : List (List (String × ℚ)) :=
  st.active.filterMap LogLine.row?

/-- The values of column `k` of the DataFrame built from the parsed rows:
pandas column access followed by NaN-skipping, i.e. the value of field `k`
in every row that has that field. -/
def colOf (k : String) (rows : List (List (String × ℚ))) : List ℚ :=
  rows.filterMap (fun r => r.lookup k)

/-- Arithmetic mean as computed by `Series.mean()` over the non-missing
values of a column. -/
def dfMean (xs : List ℚ) : ℚ :=
  xs.sum / (xs.length : ℚ)

/-- Semantics of `Series.quantile(0.95)` with the default linear
interpolation: at position `0.95 * (m - 1)` in the sorted values,
interpolating linearly between the neighbouring order statistics. -/
def quantile95 (xs : List ℚ) : ℚ :=
  let s := sortQ xs
  let pos : ℚ := (19 / 20) * ((s.length : ℚ) - 1)
  let i : Nat := (⌊pos⌋).toNat
  let lo := s.getD i 0
  let hi := s.getD (i + 1) lo
  lo + (pos - (i : ℚ)) * (hi - lo)

/-- The summary record written to `reports/artifacts/summary.csv`. -/
structure Summary where
  total_requests : Nat
  avg_batch_size : ℚ
  avg_latency_ms : ℚ
  p95_latency_ms : ℚ
deriving DecidableEq, Repr

/-- Embedding of `main` (reports/make_report.py): parse the log, report the
"No prediction logs yet." outcome (`none`) when the DataFrame is empty — no
rows, or only rows with no fields at all — and otherwise build the summary
dict.  `df["n"]` (resp. `df["latency_ms"]`) raises a KeyError when no parsed
row has that field, modelled as the `.error` branch; `total_requests` is
`len(df)`, the count of all parsed rows, and the mean and quantile skip rows
missing the field. -/
def main (st : LogState) : Except String (Option Summary) :=
  let rows := parse_lines st
  if rows.isEmpty || rows.all (fun r => r.isEmpty) then .ok none
  else if (colOf "n" rows).isEmpty || (colOf "latency_ms" rows).isEmpty then
    .error "KeyError"
  else .ok (some
    { total_requests := rows.length
      avg_batch_size := dfMean (colOf "n" rows)
      avg_latency_ms := dfMean (colOf "latency_ms" rows)
      p95_latency_ms := quantile95 (colOf "latency_ms" rows) })

/-- A parsed row is a valid prediction event in the sense of the log record
contract: it has an integer field `n ≥ 1` and a field `latency_ms ≥ 0`. -/
def validEvent (r : List (String × ℚ)) : Bool :=
  match r.lookup "n", r.lookup "latency_ms" with
  | some n, some l => decide (n.den = 1) && decide (1 ≤ n) && decide (0 ≤ l)
  | _, _ => false

/-! Logger setup (app/logger.py). -/

/-- The configuration of a RotatingFileHandler as built by `_mk_handler`. -/
structure Handler where
  filePath : String
  maxBytes : Nat
  backupCount : Nat
deriving DecidableEq, Repr

/-- Embedding of `_mk_handler` (app/logger.py): a rotating handler over the
given file, rotating at 1,000,000 bytes and keeping 3 backups. -/
def mk_handler (p : String) : Handler :=
  { filePath := p, maxBytes := 1000000, backupCount := 3 }

/-- The observable state of one `logging.Logger`: its level, its `propagate`
flag and its attached handlers. -/
structure PyLogger where
  level : Nat
  propagate : Bool
  handlers : List Handler
deriving DecidableEq, Repr

/-- The process-wide logger registry kept by `logging.getLogger`: an
association list from logger name to logger state; lookups see the most
recent binding. -/
abbrev Registry := List (String × PyLogger)

/-- Semantics of `logging.getLogger(name)`: return the registered logger, or
register and return a fresh one (level WARNING = 30, `propagate` on, no
handlers). -/
def getLogger (nm : String) (reg : Registry) : Registry × PyLogger :=
  match List.lookup nm reg with
  | some l => (reg, l)
  | none => ((nm, ⟨30, true, []⟩) :: reg, ⟨30, true, []⟩)

/-- Embedding of `get_app_logger` (app/logger.py): fetch logger "app", set
level INFO = 20 and `propagate = False`, and attach the `logs/app.log`
rotating handler only when no handler is attached yet. -/
def get_app_logger (reg : Registry) : Registry × PyLogger :=
  let (reg1, l0) := getLogger "app" reg
  let l1 : PyLogger :=
    { level := 20, propagate := false
      handlers := if l0.handlers.isEmpty then [mk_handler "logs/app.log"] else l0.handlers }
  (("app", l1) :: reg1, l1)

/-- Embedding of `get_pred_logger` (app/logger.py): fetch logger "predict",
set level INFO = 20 and `propagate = False`, and attach the
`logs/predictions.log` rotating handler only when no handler is attached
yet. -/
def get_pred_logger (reg : Registry) : Registry × PyLogger :=
  let (reg1, l0) := getLogger "predict" reg
  let l1 : PyLogger :=
    { level := 20, propagate := false
      handlers := if l0.handlers.isEmpty then [mk_handler "logs/predictions.log"] else l0.handlers }
  (("predict", l1) :: reg1, l1)

/-- Call `get_pred_logger` `n` times in sequence, threading the registry. -/
def iterPred : Nat → Registry → Registry
  | 0, reg => reg
  | n + 1, reg => iterPred n (get_pred_logger reg).1

/-- Call `get_app_logger` `n` times in sequence, threading the registry. -/
def iterApp : Nat → Registry → Registry
  | 0, reg => reg
  | n + 1, reg => iterApp n (get_app_logger reg).1

/-- How many times one `logger.info(...)` record is appended to storage:
once per attached handler (with `propagate = False` nothing is forwarded to
ancestor loggers, so the attached handlers are the only writers). -/
def handlerCount (reg : Registry) (nm : String) : Nat :=
  match List.lookup nm reg with
  | some l => l.handlers.length
  | none => 0

/-! Inference execution (app/inference.py). -/

/-- The cached sklearn model as used by `predict_from_json` /
`predict_from_csv`: a label for each row of the cleaned matrix, and — when
the artifact exposes `predict_proba` (`probaSupport`) — a probability vector
for each row. -/
structure MLModel where
  predict : List (List (Option ℚ)) → List ℤ
  probaSupport : Bool
  proba : List (List (Option ℚ)) → List (List ℚ)

/-- One structured record appended to `logs/predictions.log` per prediction
call: the batch size and the rounded latency. -/
structure PredEvent where
  n : Nat
  latency_ms : ℚ
deriving DecidableEq, Repr

/-- The response dict of a prediction call: labels, probabilities (absent
when the model does not support them) and the rounded latency. -/
structure PredResponse where
  pred : List ℤ
  proba : Option (List (List ℚ))
  latency_ms : ℚ
deriving DecidableEq, Repr

/-- The observable steps a prediction call performs, in order: model load,
input normalization, a `time.time()` read, the `model.predict` call, the
`model.predict_proba` call, and the write of the log record. -/
inductive Step
  | loadModel
  | normalizeInput
  | clockRead
  | predictCall
  | probaCall
  | logWrite
deriving DecidableEq, Repr

/-- Round-half-to-even on a rational, the rounding Python's builtin `round`
uses. -/
def roundHalfEven (x : ℚ) : ℤ :=
  if x - (⌊x⌋ : ℚ) < 1 / 2 then ⌊x⌋
  else if (1 : ℚ) / 2 < x - (⌊x⌋ : ℚ) then ⌊x⌋ + 1
  else if ⌊x⌋ % 2 = 0 then ⌊x⌋ else ⌊x⌋ + 1

/-- Semantics of `round(x, 3)`: round half-to-even at the third decimal. -/
def pyRound3 (x : ℚ) : ℚ :=
  (roundHalfEven (x * 1000) : ℚ) / 1000

/-- Embedding of `predict_from_json` (app/inference.py), with the two
`time.time()` reads passed in as the clock values `t0` (taken right before
`model.predict`) and `t1` (taken right after the probability call, before
the log write).  Returns the response, the list of log records appended, and
the trace of steps in program order. -/
def predict_from_json (m : MLModel) (t0 t1 : ℚ) (p : Payload) :
    Except Err (PredResponse × List PredEvent × List Step) :=
  match from_json_payload p with
  | .error e => .error e
  | .ok X =>
    let y := m.predict X
    let pr := if m.probaSupport then some (m.proba X) else none
    let lat := pyRound3 ((t1 - t0) * 1000)
    .ok ({ pred := y, proba := pr, latency_ms := lat },
         [⟨X.length, lat⟩],
         [.loadModel, .normalizeInput, .clockRead, .predictCall]
           ++ (if m.probaSupport then [.probaCall] else [])
           ++ [.clockRead, .logWrite])

/-- Embedding of `predict_from_csv` (app/inference.py); identical to the JSON
variant except that the input is parsed by `from_csv_bytes`. -/
def predict_from_csv (m : MLModel) (t0 t1 : ℚ) (f : CsvFile) :
    Except Err (PredResponse × List PredEvent × List Step) :=
  match from_csv_bytes f with
  | .error e => .error e
  | .ok X =>
    let y := m.predict X
    let pr := if m.probaSupport then some (m.proba X) else none
    let lat := pyRound3 ((t1 - t0) * 1000)
    .ok ({ pred := y, proba := pr, latency_ms := lat },
         [⟨X.length, lat⟩],
         [.loadModel, .normalizeInput, .clockRead, .predictCall]
           ++ (if m.probaSupport then [.probaCall] else [])
           ++ [.clockRead, .logWrite])

/-- The steps strictly between the first and the second clock read — the
window whose duration `latency_ms` measures. -/
def timedSegment (tr : List Step) : List Step :=
  ((tr.dropWhile (fun s => !decide (s = .clockRead))).drop 1).takeWhile
    (fun s => !decide (s = .clockRead))

/-- The steps before the first clock read. -/
def beforeTimed (tr : List Step) : List Step :=
  tr.takeWhile (fun s => !decide (s = .clockRead))

/-- The steps after the last clock read. -/
def afterTimed (tr : List Step) : List Step :=
  (tr.reverse.takeWhile (fun s => !decide (s = .clockRead))).reverse

/-- The model-invocation steps a call performs: `predict`, plus
`predict_proba` when supported. -/
def modelSteps (m : MLModel) : List Step :=
  .predictCall :: (if m.probaSupport then [.probaCall] else [])

/-- Dense output check: every cell of the cleaned matrix is a real number,
no NaN markers remain. -/
def allSomeMatrix (m : List (List (Option ℚ))) : Bool :=
  m.all (fun r => r.all Option.isSome)

/-- Per-cell imputation check: every cell of the input that fails numeric
coercion is mapped, in the cleaned matrix, to the median of its column's
non-missing values within the current batch. -/
def missingFilled (rows : List (List JCell)) : Bool :=
  (List.range rows.length).all fun i =>
    (List.range (rows.getD i []).length).all fun j =>
      match ((rows.getD i []).getD j (.num 0)).toNumeric with
      | some _ => true
      | none =>
        decide (((imputeRows rows).getD i []).getD j none = median (colVals rows j))

/-! General lemmas about the embedded definitions. -/

theorem length_insertSorted (x : ℚ) (l : List ℚ) :
    (insertSorted x l).length = l.length + 1 := by
  induction l with
  | nil => rfl
  | cons y ys ih =>
    unfold insertSorted
    by_cases h : x ≤ y
    · simp [h]
    · simp [h, ih]

theorem length_sortQ (l : List ℚ) : (sortQ l).length = l.length := by
  induction l with
  | nil => rfl
  | cons x xs ih => simp [sortQ, length_insertSorted, ih]

theorem median_isSome (xs : List ℚ) (h : xs ≠ []) : (median xs).isSome = true := by
  have hpos : 0 < (sortQ xs).length := by
    rw [length_sortQ]; exact List.length_pos.mpr h
  unfold median
  rw [if_neg (by omega)]
  by_cases hodd : (sortQ xs).length % 2 = 1
  · rw [if_pos hodd]
    have hlt : (sortQ xs).length / 2 < (sortQ xs).length :=
      Nat.div_lt_self hpos (by norm_num)
    rw [List.get?_eq_get hlt]
    rfl
  · rw [if_neg hodd]
    have hlt1 : (sortQ xs).length / 2 - 1 < (sortQ xs).length := by omega
    have hlt2 : (sortQ xs).length / 2 < (sortQ xs).length :=
      Nat.div_lt_self hpos (by norm_num)
    rw [List.get?_eq_get hlt1, List.get?_eq_get hlt2]
    rfl

theorem imputeRow_length (rows : List (List JCell)) (r : List JCell) (j : Nat) :
    (imputeRow rows j r).length = r.length := by
  induction r generalizing j with
  | nil => rfl
  | cons c cs ih => simp [imputeRow, ih]

theorem imputeRow_getD (rows : List (List JCell)) (r : List JCell) (j k : Nat)
    (h : k < r.length) :
    (imputeRow rows j r).getD k none = imputeCell rows (j + k) (r.getD k (.num 0)) := by
  induction r generalizing j k with
  | nil => simp at h
  | cons c cs ih =>
    cases k with
    | zero => rfl
    | succ k =>
      have hk : k < cs.length := by simpa using h
      have := ih (j + 1) k hk
      rw [show j + (k + 1) = j + 1 + k from by omega]
      simpa [imputeRow, List.getD] using this

theorem imputeRow_isSome (rows : List (List JCell)) (r : List JCell) (j : Nat)
    (h : ∀ k, k < r.length → colVals rows (j + k) ≠ []) :
    ∀ o ∈ imputeRow rows j r, o.isSome = true := by
  induction r generalizing j with
  | nil => intro o ho; simp [imputeRow] at ho
  | cons c cs ih =>
    intro o ho
    rcases (by simpa [imputeRow] using ho :
        o = imputeCell rows j c ∨ o ∈ imputeRow rows (j + 1) cs) with rfl | ho2
    · unfold imputeCell
      cases hc : c.toNumeric with
      | some q => rfl
      | none =>
        have h0 : colVals rows j ≠ [] := by
          have := h 0 (by simp)
          simpa using this
        exact median_isSome _ h0
    · refine ih (j + 1) (fun k hk => ?_) o ho2
      have := h (k + 1) (by simpa using Nat.succ_lt_succ hk)
      rwa [show j + (k + 1) = j + 1 + k from by omega] at this

theorem getD_map_lt {α β : Type} (f : α → β) (l : List α) (i : Nat) (d : β) (dd : α)
    (h : i < l.length) : (l.map f).getD i d = f (l.getD i dd) := by
  induction l generalizing i with
  | nil => simp at h
  | cons a l ih =>
    cases i with
    | zero => rfl
    | succ i =>
      have : i < l.length := by simpa using h
      simpa [List.getD] using ih i this

theorem missingFilled_true (rows : List (List JCell)) : missingFilled rows = true := by
  simp only [missingFilled, List.all_eq_true, List.mem_range]
  intro i hi j hj
  cases hc : ((rows.getD i []).getD j (.num 0)).toNumeric with
  | some q => simp [hc]
  | none =>
    simp only [hc, decide_eq_true_eq]
    have h1 : (imputeRows rows).getD i [] = imputeRow rows 0 (rows.getD i []) := by
      unfold imputeRows
      exact getD_map_lt _ rows i [] [] hi
    rw [h1, imputeRow_getD rows _ 0 j hj, Nat.zero_add]
    unfold imputeCell
    rw [hc]

theorem colOf_facts (k : String) (rows : List (List (String × ℚ)))
    (h : (colOf k rows).isEmpty = false) :
    rows.isEmpty = false ∧ rows.all (fun r => r.isEmpty) = false := by
  constructor
  · cases rows with
    | nil => simp [colOf] at h
    | cons r rs => rfl
  · cases hb : rows.all (fun r => r.isEmpty) with
    | false => rfl
    | true =>
      exfalso
      have hnil : colOf k rows = [] := by
        unfold colOf
        rw [List.filterMap_eq_nil_iff]
        intro r hr
        have hre : r.isEmpty = true := List.all_eq_true.mp hb r hr
        have : r = [] := List.isEmpty_iff.mp hre
        simp [this]
      rw [hnil] at h
      simp at h

theorem pyRound3_den (x : ℚ) : (pyRound3 x * 1000).den = 1 := by
  unfold pyRound3
  rw [div_mul_cancel₀ _ (by norm_num : (1000 : ℚ) ≠ 0)]
  exact Rat.den_intCast _

/-! Claim theorems. -/

/-- C1: for every raw input whose column count (after promoting a flat sample
to a one-row matrix) differs from `N_FEATURES`, `clean_array` fails with the
shape-specific error carrying that column count — never truncating or padding
— and every input it accepts is returned with its row count preserved and
every row exactly `N_FEATURES` wide (the accepted width equals the input
width, which the acceptance condition forces to be `N_FEATURES`). -/
theorem C1_clean_array_shape (a : NDArr) (hwf : a.wfB = true) :
    clean_array a =
      (if a.ncolsOf = N_FEATURES then .ok (imputeRows a.promoteRows)
       else .error (.shapeMismatch a.ncolsOf)) ∧
    (imputeRows a.promoteRows).length = a.promoteRows.length ∧
    (imputeRows a.promoteRows).all (fun r => decide (r.length = a.ncolsOf)) = true := by
  refine ⟨rfl, by simp [imputeRows], ?_⟩
  simp only [List.all_eq_true, decide_eq_true_eq, imputeRows]
  intro r hr
  obtain ⟨r0, hr0, rfl⟩ := List.mem_map.mp hr
  rw [imputeRow_length]
  cases a with
  | rank1 xs =>
    simp only [NDArr.promoteRows, List.mem_singleton] at hr0
    subst hr0; rfl
  | rank2 n rows =>
    simp only [NDArr.wfB, List.all_eq_true, decide_eq_true_eq] at hwf
    exact hwf r0 hr0

/-- Witness for C1 at the concrete three-cell flat sample, which is rejected
with the shape-specific error naming its column count 3. -/
theorem C1_clean_array_shape_witness :
    clean_array (.rank1 [.num 1, .num 2, .tok]) = .error (.shapeMismatch 3) := by
  have h := (C1_clean_array_shape (.rank1 [.num 1, .num 2, .tok]) (by decide)).1
  simpa [NDArr.ncolsOf, N_FEATURES] using h

/-- C2 counterexample: a CSV holding only a header row with `N_FEATURES`
column names has zero data rows, yet `from_csv_bytes` accepts it and returns
a zero-row matrix instead of failing with an empty-input error — so a batch
can be empty in the CSV entry mode. -/
theorem C2_counterexample :
    from_csv_bytes (.withHeader (List.replicate N_FEATURES "x") []) =
      .ok ([] : List (List (Option ℚ))) := rfl

/-- C2 amended: the JSON entry mode fails with the "JSON must be a non-empty
list" error whenever the payload is missing (not a list) or has zero rows,
and empty CSV bytes fail with the pandas EmptyDataError; but a header-only
CSV with `N_FEATURES` columns is accepted and normalizes to a zero-row
matrix. -/
theorem C2_amended_empty_inputs :
    from_json_payload .notList = .error .jsonNotNonEmptyList ∧
    from_json_payload (.flat []) = .error .jsonNotNonEmptyList ∧
    from_json_payload (.nested []) = .error .jsonNotNonEmptyList ∧
    from_csv_bytes .empty = .error .emptyCsvData ∧
    from_csv_bytes (.withHeader (List.replicate N_FEATURES "c") []) =
      .ok ([] : List (List (Option ℚ))) :=
  ⟨rfl, rfl, rfl, rfl, rfl⟩

/-- C3 counterexample: the same two-row batch with one non-numeric cell is
rejected with the `np.array(..., dtype=float)` ValueError in the JSON entry
mode, while the CSV entry mode coerces the cell to missing and imputes it
with its column median — so a non-numeric cell does cause the whole batch to
fail in one of the two modes. -/
theorem C3_counterexample :
    from_json_payload (.nested
      [JCell.tok :: List.replicate 22 (.num 1), List.replicate 23 (.num 2)]) =
      .error .npArrayError ∧
    from_csv_bytes (.withHeader (List.replicate 23 "h")
      [JCell.tok :: List.replicate 22 (.num 1), List.replicate 23 (.num 2)]) =
      .ok [Option.some (2 : ℚ) :: List.replicate 22 (some 1),
        List.replicate 23 (some 2)] := by
  constructor
  · rfl
  · rfl

/-- C3 amended: in the CSV entry mode a cell that fails numeric coercion
becomes missing and the batch is still accepted whenever the header has
`N_FEATURES` columns; in the JSON entry mode any batch containing a
non-numeric cell fails with an error, because `np.array(payload, dtype=float)`
raises before the coercion step is reached. -/
theorem C3_amended_csv_imputes_json_fails (hdr : List String)
    (rows rows2 : List (List JCell))
    (hh : hdr.length = N_FEATURES)
    (htok : rows2.any (fun r => r.any JCell.isTok) = true) :
    exceptIsOk (from_csv_bytes (.withHeader hdr rows)) = true ∧
    exceptIsOk (from_json_payload (.nested rows2)) = false := by
  constructor
  · simp [from_csv_bytes, clean_array, NDArr.ncolsOf, hh, exceptIsOk]
  · cases rows2 with
    | nil => simp at htok
    | cons r rs => simp [from_json_payload, htok, exceptIsOk]

/-- Witness for C3 amended at a concrete header and concrete batches. -/
theorem C3_amended_witness :
    exceptIsOk (from_csv_bytes (.withHeader (List.replicate 23 "c")
      [[JCell.tok], [JCell.num 5]])) = true ∧
    exceptIsOk (from_json_payload (.nested [[JCell.tok], [JCell.num 5]])) = false :=
  C3_amended_csv_imputes_json_fails _ _ _ (by decide) (by decide)

/-- C4: for every batch with exactly `N_FEATURES` columns in which each
column has at least one numerically coercible value, `clean_array` accepts
the batch and returns a dense matrix with no remaining missing markers, each
missing cell being filled with the median of its column's non-missing values
within the current batch. -/
theorem C4_impute_no_missing (rows : List (List JCell))
    (hw : rows.all (fun r => decide (r.length = N_FEATURES)) = true)
    (hp : (List.range N_FEATURES).all (fun j => decide (colVals rows j ≠ [])) = true) :
    clean_array (.rank2 N_FEATURES rows) = .ok (imputeRows rows) ∧
    allSomeMatrix (imputeRows rows) = true ∧
    missingFilled rows = true := by
  refine ⟨rfl, ?_, missingFilled_true rows⟩
  simp only [allSomeMatrix, List.all_eq_true, imputeRows]
  intro r hr
  obtain ⟨r0, hr0, rfl⟩ := List.mem_map.mp hr
  intro o ho
  refine imputeRow_isSome rows r0 0 (fun k hk => ?_) o ho
  rw [Nat.zero_add]
  simp only [List.all_eq_true, decide_eq_true_eq] at hw hp
  have hlen : r0.length = N_FEATURES := hw r0 hr0
  exact hp k (List.mem_range.mpr (hlen ▸ hk))

/-- Witness for C4 at a concrete two-row batch whose first cell is missing. -/
theorem C4_impute_no_missing_witness :
    clean_array (.rank2 N_FEATURES
      [JCell.nanV :: List.replicate 22 (.num 1), List.replicate 23 (.num 4)]) =
      .ok (imputeRows
        [JCell.nanV :: List.replicate 22 (.num 1), List.replicate 23 (.num 4)]) ∧
    allSomeMatrix (imputeRows
      [JCell.nanV :: List.replicate 22 (.num 1), List.replicate 23 (.num 4)]) = true ∧
    missingFilled
      [JCell.nanV :: List.replicate 22 (.num 1), List.replicate 23 (.num 4)] = true :=
  C4_impute_no_missing _ (by decide) (by decide)

/-- C5: submitting the same nonempty rectangular batch of values (no
non-numeric tokens) as a structured JSON payload and as CSV bytes with a
header row naming its columns produces identical normalized matrices — both
entry modes converge to the same `clean_array` call. -/
theorem C5_entry_modes_agree (hdr : List String) (rows : List (List JCell))
    (hne : rows ≠ [])
    (hrect : rectB rows = true)
    (hnotok : rows.any (fun r => r.any JCell.isTok) = false)
    (hh : hdr.length = (rows.headD []).length) :
    from_json_payload (.nested rows) = from_csv_bytes (.withHeader hdr rows) := by
  cases rows with
  | nil => exact absurd rfl hne
  | cons r rs => simp [from_json_payload, from_csv_bytes, hrect, hnotok, hh]

/-- Witness for C5 at a concrete one-row batch of 23 values. -/
theorem C5_entry_modes_agree_witness :
    from_json_payload (.nested [List.replicate 23 (JCell.num 3)]) =
      from_csv_bytes (.withHeader (List.replicate 23 "a")
        [List.replicate 23 (JCell.num 3)]) :=
  C5_entry_modes_agree _ _ (by decide) (by decide) (by decide) (by decide)

/-- C6: on every successful prediction call (JSON or CSV entry), the reported
`latency_ms` is the rounded duration between the two clock reads, the window
between those reads contains only the model invocation steps (normalization
happens strictly before the first read and the log write strictly after the
second), the value is rounded to three decimal places (a multiple of 1/1000),
and exactly one log record — carrying that same latency — is written per
batch, not per row. -/
theorem C6_latency_window (m : MLModel) (t0 t1 : ℚ) (p : Payload) (f : CsvFile)
    (r1 r2 : PredResponse) (e1 e2 : List PredEvent) (tr1 tr2 : List Step)
    (h1 : predict_from_json m t0 t1 p = .ok (r1, e1, tr1))
    (h2 : predict_from_csv m t0 t1 f = .ok (r2, e2, tr2)) :
    r1.latency_ms = pyRound3 ((t1 - t0) * 1000) ∧
    r2.latency_ms = pyRound3 ((t1 - t0) * 1000) ∧
    (r1.latency_ms * 1000).den = 1 ∧
    (r2.latency_ms * 1000).den = 1 ∧
    e1.map PredEvent.latency_ms = [r1.latency_ms] ∧
    e2.map PredEvent.latency_ms = [r2.latency_ms] ∧
    e1.length = 1 ∧ e2.length = 1 ∧
    timedSegment tr1 = modelSteps m ∧
    timedSegment tr2 = modelSteps m ∧
    beforeTimed tr1 = [.loadModel, .normalizeInput] ∧
    beforeTimed tr2 = [.loadModel, .normalizeInput] ∧
    afterTimed tr1 = [.logWrite] ∧
    afterTimed tr2 = [.logWrite] := by
  unfold predict_from_json at h1
  unfold predict_from_csv at h2
  cases hX : from_json_payload p with
  | error e => rw [hX] at h1; cases h1
  | ok X =>
    cases hY : from_csv_bytes f with
    | error e => rw [hY] at h2; cases h2
    | ok Y =>
      rw [hX] at h1
      rw [hY] at h2
      simp only [Except.ok.injEq, Prod.mk.injEq] at h1 h2
      obtain ⟨hA1, hB1, hC1⟩ := h1
      obtain ⟨hA2, hB2, hC2⟩ := h2
      subst hA1; subst hB1; subst hC1
      subst hA2; subst hB2; subst hC2
      refine ⟨rfl, rfl, by simpa using pyRound3_den ((t1 - t0) * 1000),
        by simpa using pyRound3_den ((t1 - t0) * 1000),
        rfl, rfl, rfl, rfl, ?_, ?_, ?_, ?_, ?_, ?_⟩ <;>
        cases hb : m.probaSupport <;>
        simp [timedSegment, modelSteps, beforeTimed, afterTimed, hb]

/-- Witness for C6 at a concrete model without probability support, clock
values 0 and 2, and concrete JSON and CSV inputs. -/
theorem C6_latency_window_witness :
    (⟨[0], none, pyRound3 ((2 - 0) * 1000)⟩ : PredResponse).latency_ms =
      pyRound3 ((2 - 0) * 1000) ∧
    (⟨[0], none, pyRound3 ((2 - 0) * 1000)⟩ : PredResponse).latency_ms =
      pyRound3 ((2 - 0) * 1000) ∧
    ((⟨[0], none, pyRound3 ((2 - 0) * 1000)⟩ : PredResponse).latency_ms * 1000).den = 1 ∧
    ((⟨[0], none, pyRound3 ((2 - 0) * 1000)⟩ : PredResponse).latency_ms * 1000).den = 1 ∧
    ([⟨1, pyRound3 ((2 - 0) * 1000)⟩] : List PredEvent).map PredEvent.latency_ms =
      [(⟨[0], none, pyRound3 ((2 - 0) * 1000)⟩ : PredResponse).latency_ms] ∧
    ([⟨1, pyRound3 ((2 - 0) * 1000)⟩] : List PredEvent).map PredEvent.latency_ms =
      [(⟨[0], none, pyRound3 ((2 - 0) * 1000)⟩ : PredResponse).latency_ms] ∧
    ([⟨1, pyRound3 ((2 - 0) * 1000)⟩] : List PredEvent).length = 1 ∧
    ([⟨1, pyRound3 ((2 - 0) * 1000)⟩] : List PredEvent).length = 1 ∧
    timedSegment [.loadModel, .normalizeInput, .clockRead, .predictCall,
        .clockRead, .logWrite] =
      modelSteps ⟨fun X => List.replicate X.length 0, false, fun _ => []⟩ ∧
    timedSegment [.loadModel, .normalizeInput, .clockRead, .predictCall,
        .clockRead, .logWrite] =
      modelSteps ⟨fun X => List.replicate X.length 0, false, fun _ => []⟩ ∧
    beforeTimed [.loadModel, .normalizeInput, .clockRead, .predictCall,
        .clockRead, .logWrite] = [.loadModel, .normalizeInput] ∧
    beforeTimed [.loadModel, .normalizeInput, .clockRead, .predictCall,
        .clockRead, .logWrite] = [.loadModel, .normalizeInput] ∧
    afterTimed [.loadModel, .normalizeInput, .clockRead, .predictCall,
        .clockRead, .logWrite] = [.logWrite] ∧
    afterTimed [.loadModel, .normalizeInput, .clockRead, .predictCall,
        .clockRead, .logWrite] = [.logWrite] :=
  C6_latency_window ⟨fun X => List.replicate X.length 0, false, fun _ => []⟩ 0 2
    (.nested [List.replicate 23 (JCell.num 1)])
    (.withHeader (List.replicate 23 "c") [List.replicate 23 (JCell.num 1)])
    ⟨[0], none, pyRound3 ((2 - 0) * 1000)⟩ ⟨[0], none, pyRound3 ((2 - 0) * 1000)⟩
    [⟨1, pyRound3 ((2 - 0) * 1000)⟩] [⟨1, pyRound3 ((2 - 0) * 1000)⟩]
    [.loadModel, .normalizeInput, .clockRead, .predictCall, .clockRead, .logWrite]
    [.loadModel, .normalizeInput, .clockRead, .predictCall, .clockRead, .logWrite]
    (by rfl) (by rfl)

/-- C7 counterexample: with the active segment empty and one valid prediction
record sitting in a retained rotated segment, the aggregator reports the
"no data" outcome — it does not read the rotated segments, so it does not
read every available record across all retained segments. -/
theorem C7_counterexample :
    main ⟨[], [[.jsonRow [("n", 1), ("latency_ms", 10)]]]⟩ = .ok none ∧
    ((([[.jsonRow [("n", 1), ("latency_ms", 10)]]] :
      List (List LogLine)).flatten).filterMap LogLine.row?).length = 1 ∧
    validEvent [("n", 1), ("latency_ms", 10)] = true := by
  refine ⟨rfl, rfl, ?_⟩
  decide

/-- C7 amended: on each run the aggregator recomputes the summary from
scratch, but it reads only the active segment `logs/predictions.log`; the
rotated historical segments kept by the 1,000,000-byte / 3-backup rotation
policy are never read, so its output is independent of their contents. -/
theorem C7_amended_active_segment_only (a : List LogLine)
    (b bAlt : List (List LogLine)) :
    parse_lines ⟨a, b⟩ = parse_lines ⟨a, bAlt⟩ ∧
    main ⟨a, b⟩ = main ⟨a, bAlt⟩ ∧
    parse_lines ⟨a, b⟩ = a.filterMap LogLine.row? ∧
    (mk_handler "logs/predictions.log").maxBytes = 1000000 ∧
    (mk_handler "logs/predictions.log").backupCount = 3 :=
  ⟨rfl, rfl, rfl, rfl, rfl⟩

/-- C8 counterexample: a log whose lines are one valid prediction event and
one JSON object that is not a prediction event (no `n`, no `latency_ms`)
aggregates to `total_requests = 2`, while only 1 record is a valid prediction
event — the summary is not taken over exactly the valid records. -/
theorem C8_counterexample :
    main ⟨[.jsonRow [("n", 1), ("latency_ms", 10)], .jsonRow [("foo", 1)]], []⟩ =
      .ok (some { total_requests := 2
                  avg_batch_size := 1
                  avg_latency_ms := 10
                  p95_latency_ms := 10 }) ∧
    (parse_lines
      ⟨[.jsonRow [("n", 1), ("latency_ms", 10)], .jsonRow [("foo", 1)]], []⟩).countP
        validEvent = 1 := by
  constructor
  · simp [main, parse_lines, LogLine.row?, colOf, List.lookup,
      List.filterMap_cons, Summary.mk.injEq]
    norm_num [dfMean, quantile95, sortQ, insertSorted]
  · decide

/-- C8 amended: a line whose extracted tail fails to parse as JSON is skipped
without aborting the run, but every line whose tail parses as a JSON object
is appended as a row: `total_requests` counts all parsed rows, including
objects that are not valid prediction events, while the mean and percentile
statistics are computed over the rows that carry the respective field. -/
theorem C8_amended_rows_counted (st : LogState)
    (h1 : (colOf "n" (parse_lines st)).isEmpty = false)
    (h2 : (colOf "latency_ms" (parse_lines st)).isEmpty = false) :
    parse_lines st = st.active.filterMap LogLine.row? ∧
    main st = .ok (some
      { total_requests := (parse_lines st).length
        avg_batch_size := dfMean (colOf "n" (parse_lines st))
        avg_latency_ms := dfMean (colOf "latency_ms" (parse_lines st))
        p95_latency_ms := quantile95 (colOf "latency_ms" (parse_lines st)) }) := by
  obtain ⟨hne, hallemp⟩ := colOf_facts "n" (parse_lines st) h1
  refine ⟨rfl, ?_⟩
  simp [main, hne, hallemp, h1, h2]

/-- Witness for C8 amended at a concrete one-line log. -/
theorem C8_amended_rows_counted_witness :
    parse_lines ⟨[.jsonRow [("n", 2), ("latency_ms", 7)]], []⟩ =
      ([.jsonRow [("n", 2), ("latency_ms", 7)]] : List LogLine).filterMap
        LogLine.row? ∧
    main ⟨[.jsonRow [("n", 2), ("latency_ms", 7)]], []⟩ = .ok (some
      { total_requests :=
          (parse_lines ⟨[.jsonRow [("n", 2), ("latency_ms", 7)]], []⟩).length
        avg_batch_size := dfMean (colOf "n"
          (parse_lines ⟨[.jsonRow [("n", 2), ("latency_ms", 7)]], []⟩))
        avg_latency_ms := dfMean (colOf "latency_ms"
          (parse_lines ⟨[.jsonRow [("n", 2), ("latency_ms", 7)]], []⟩))
        p95_latency_ms := quantile95 (colOf "latency_ms"
          (parse_lines ⟨[.jsonRow [("n", 2), ("latency_ms", 7)]], []⟩)) }) :=
  C8_amended_rows_counted _ (by rfl) (by rfl)

/-- C9: for the event source holding exactly the three valid records
n = [1, 2, 3] with latency_ms = [10, 20, 30], the aggregator computes
total_requests = 3, avg_batch_size = 2, avg_latency_ms = 20 and
p95_latency_ms = 29, the 95th percentile being the linear interpolation
between the 2nd and 3rd order statistics at fractional position 9/10. -/
theorem C9_sample_aggregation :
    main ⟨[.jsonRow [("n", 1), ("latency_ms", 10)],
           .jsonRow [("n", 2), ("latency_ms", 20)],
           .jsonRow [("n", 3), ("latency_ms", 30)]], []⟩ =
      .ok (some { total_requests := 3
                  avg_batch_size := 2
                  avg_latency_ms := 20
                  p95_latency_ms := 29 }) ∧
    quantile95 [10, 20, 30] = 20 + (9 / 10) * (30 - 20) := by
  constructor
  · simp [main, parse_lines, LogLine.row?, colOf, List.lookup,
      List.filterMap_cons, Summary.mk.injEq]
    norm_num [dfMean, quantile95, sortQ, insertSorted]
  · norm_num [quantile95, sortQ, insertSorted]

/-- Stability of the "predict" logger across repeated acquisitions: once the
registered logger has a nonempty handler list, further `get_pred_logger`
calls leave it unchanged. -/
theorem iterPred_stable (n : Nat) (reg : Registry) (hs : List Handler)
    (hL : List.lookup "predict" reg = some ⟨20, false, hs⟩) (hne : hs ≠ []) :
    List.lookup "predict" (iterPred n reg) = some ⟨20, false, hs⟩ := by
  induction n generalizing reg with
  | zero => exact hL
  | succ n ih =>
    show List.lookup "predict" (iterPred n (get_pred_logger reg).1) = _
    have hemp : hs.isEmpty = false := by
      cases hs with
      | nil => exact absurd rfl hne
      | cons h t => rfl
    have hget : (get_pred_logger reg).1 = ("predict", ⟨20, false, hs⟩) :: reg := by
      unfold get_pred_logger getLogger
      rw [hL]
      simp [hemp]
    rw [hget]
    exact ih _ (by simp [List.lookup])

/-- Stability of the "app" logger across repeated acquisitions. -/
theorem iterApp_stable (n : Nat) (reg : Registry) (hs : List Handler)
    (hL : List.lookup "app" reg = some ⟨20, false, hs⟩) (hne : hs ≠ []) :
    List.lookup "app" (iterApp n reg) = some ⟨20, false, hs⟩ := by
  induction n generalizing reg with
  | zero => exact hL
  | succ n ih =>
    show List.lookup "app" (iterApp n (get_app_logger reg).1) = _
    have hemp : hs.isEmpty = false := by
      cases hs with
      | nil => exact absurd rfl hne
      | cons h t => rfl
    have hget : (get_app_logger reg).1 = ("app", ⟨20, false, hs⟩) :: reg := by
      unfold get_app_logger getLogger
      rw [hL]
      simp [hemp]
    rw [hget]
    exact ih _ (by simp [List.lookup])

/-- C10: calling `get_pred_logger` (or `get_app_logger`) any number of times
from a fresh process leaves the underlying logger with exactly one attached
file handler (and `propagate` off), so one `info` record per prediction is
appended to the log exactly once — repeated logger acquisition never produces
duplicate records. -/
theorem C10_single_handler (n : Nat) (h : 1 ≤ n) :
    List.lookup "predict" (iterPred n []) =
      some ⟨20, false, [mk_handler "logs/predictions.log"]⟩ ∧
    List.lookup "app" (iterApp n []) =
      some ⟨20, false, [mk_handler "logs/app.log"]⟩ ∧
    handlerCount (iterPred n []) "predict" = 1 ∧
    handlerCount (iterApp n []) "app" = 1 := by
  obtain ⟨m, rfl⟩ : ∃ m, n = m + 1 := ⟨n - 1, by omega⟩
  have hp : List.lookup "predict" (iterPred (m + 1) []) =
      some ⟨20, false, [mk_handler "logs/predictions.log"]⟩ := by
    show List.lookup "predict" (iterPred m (get_pred_logger []).1) = _
    have hfirst : (get_pred_logger []).1 =
        ("predict", ⟨20, false, [mk_handler "logs/predictions.log"]⟩) ::
          [("predict", ⟨30, true, []⟩)] := rfl
    rw [hfirst]
    exact iterPred_stable m _ _ (by simp [List.lookup]) (by simp)
  have ha : List.lookup "app" (iterApp (m + 1) []) =
      some ⟨20, false, [mk_handler "logs/app.log"]⟩ := by
    show List.lookup "app" (iterApp m (get_app_logger []).1) = _
    have hfirst : (get_app_logger []).1 =
        ("app", ⟨20, false, [mk_handler "logs/app.log"]⟩) ::
          [("app", ⟨30, true, []⟩)] := rfl
    rw [hfirst]
    exact iterApp_stable m _ _ (by simp [List.lookup]) (by simp)
  refine ⟨hp, ha, ?_, ?_⟩
  · unfold handlerCount; rw [hp]; rfl
  · unfold handlerCount; rw [ha]; rfl

/-- Witness for C10 at three consecutive acquisitions. -/
theorem C10_single_handler_witness :
    List.lookup "predict" (iterPred 3 []) =
      some ⟨20, false, [mk_handler "logs/predictions.log"]⟩ ∧
    List.lookup "app" (iterApp 3 []) =
      some ⟨20, false, [mk_handler "logs/app.log"]⟩ ∧
    handlerCount (iterPred 3 []) "predict" = 1 ∧
    handlerCount (iterApp 3 []) "app" = 1 :=
  C10_single_handler 3 (by norm_num)

end BCApp
